import Mathlib

/-!
Shallow embedding of the `coop_heap` cooperative-allocation library.

The repository defines two traits:

* `CoAllocator<M>` (src/alloc.rs): a fallible allocator returning a
  region-with-metadata (`SliceAndMeta`) and consuming a
  pointer-with-metadata (`PtrAndMeta`), with default-derived methods
  `co_allocate_zeroed`, `co_grow`, `co_grow_zeroed` and `shrink` built
  on the required primitives `co_allocate` / `co_deallocate`.
* `GlobalCoAlloc<M>` (src/global.rs): the raw-address variant, where a
  null (zero) address signals failure, with default-derived methods
  `co_alloc_zeroed` and `co_realloc` built on `co_alloc` / `co_dealloc`.

Embedding choices:

* Byte memory is `Mem := Nat → Nat` (address to byte value).  The raw
  writes performed by the derived methods (`ptr::copy_nonoverlapping`,
  `ptr::write_bytes`) are the functions `copyNonoverlapping` and
  `writeBytes` below.
* The required primitives are abstract: an allocator is a structure of
  functions transforming a private allocator state `σ`.  Per the base
  `Allocator` / `GlobalAlloc` contracts the primitives do not alter the
  bytes of currently allocated blocks, so they act on `σ` only; every
  heap write in the derived methods is the explicit one in the source.
* To state which calls the derived methods make, the full state
  (`AState` / `GState`) carries, besides the memory and the allocator
  state, the list of deallocation calls issued so far.
* `null` for the raw-address variant is address `0`.
-/

/-- Layout descriptor: size and alignment, as in `core::alloc::Layout`
restricted to the two accessors (`size()`, `align()`) the code uses. -/
structure Layout where
  size : Nat
  align : Nat
deriving DecidableEq

/-- Byte-addressed memory: address to byte value. -/
abbrev Mem := Nat → Nat

/-- Embedding of `ptr::write_bytes(p, v, n)`: set the `n` bytes starting
at `p` to `v`, leaving every other address unchanged. -/
def writeBytes (p v n : Nat) (m : Mem) : Mem :=
  fun a => if p ≤ a ∧ a < p + n then v else m a

/-- Embedding of `ptr::copy_nonoverlapping(src, dst, n)`: the `n` bytes
starting at `dst` become the bytes read from `src` in the pre-state,
every other address is unchanged.  (For the disjoint source and
destination required by its safety contract this is exactly the
behavior of the intrinsic.) -/
def copyNonoverlapping (src dst n : Nat) (m : Mem) : Mem :=
  fun a => if dst ≤ a ∧ a < dst + n then m (src + (a - dst)) else m a

/-- Parameter pair of `CoAllocator` (src/alloc.rs): a pointer and its
metadata. -/
structure PtrAndMeta (M : Type) where
  ptr : Nat
  meta : M

/-- Result pair of `CoAllocator` (src/alloc.rs): a slice
(`NonNull<[u8]>`, embedded as start address plus length) and its
metadata. -/
structure SliceAndMeta (M : Type) where
  ptr : Nat
  len : Nat
  meta : M

/-- Embedding of `core::alloc::AllocError` (a unit struct). -/
structure AllocError where
deriving DecidableEq

/-- Embedding of `SliceAndMetaResult<M>`. -/
abbrev SliceAndMetaResult (M : Type) := Except AllocError (SliceAndMeta M)

/-- The required primitives of the `CoAllocator<M>` trait, acting on a
private allocator state `σ`. -/
structure CoAllocator (M σ : Type) where
  co_allocate : Layout → σ → SliceAndMetaResult M × σ
  co_deallocate : PtrAndMeta M → Layout → σ → σ

/-- Full state threaded through the fallible derived operations: the
byte memory, the private allocator state, and the list of
`co_deallocate` calls (pair and layout) issued so far. -/
structure AState (M σ : Type) where
  mem : Mem
  inner : σ
  deallocs : List (PtrAndMeta M × Layout)

/-- Default body of `CoAllocator::co_allocate_zeroed` (src/alloc.rs
lines 31 to 42): call `co_allocate`, propagate its error, otherwise
overwrite all `slice.len()` bytes of the returned slice with zero and
return the pair unchanged. -/
def co_allocate_zeroed {M σ : Type} (A : CoAllocator M σ) (layout : Layout)
    (s : AState M σ) : SliceAndMetaResult M × AState M σ :=
  match A.co_allocate layout s.inner with
  | (Except.error e, σ1) => (Except.error e, { s with inner := σ1 })
  | (Except.ok r, σ1) =>
      (Except.ok r,
        { s with inner := σ1, mem := writeBytes r.ptr 0 r.len s.mem })

/-- Default body of `CoAllocator::co_grow` (src/alloc.rs lines 44 to
72): allocate `new_layout`, propagate failure, otherwise copy
`old_layout.size()` bytes from the old pointer to the start of the new
slice, deallocate the old pair with `old_layout`, and return the new
pair. -/
def co_grow {M σ : Type} (A : CoAllocator M σ) (ptr_and_meta : PtrAndMeta M)
    (old_layout new_layout : Layout) (s : AState M σ) :
    SliceAndMetaResult M × AState M σ :=
  match A.co_allocate new_layout s.inner with
  | (Except.error e, σ1) => (Except.error e, { s with inner := σ1 })
  | (Except.ok r, σ1) =>
      (Except.ok r,
        { mem := copyNonoverlapping ptr_and_meta.ptr r.ptr old_layout.size s.mem,
          inner := A.co_deallocate ptr_and_meta old_layout σ1,
          deallocs := s.deallocs ++ [(ptr_and_meta, old_layout)] })

/-- Default body of `CoAllocator::co_grow_zeroed` (src/alloc.rs lines
74 to 102): identical to `co_grow` except the new region is obtained
via `co_allocate_zeroed`. -/
def co_grow_zeroed {M σ : Type} (A : CoAllocator M σ) (ptr_and_meta : PtrAndMeta M)
    (old_layout new_layout : Layout) (s : AState M σ) :
    SliceAndMetaResult M × AState M σ :=
  match co_allocate_zeroed A new_layout s with
  | (Except.error e, s1) => (Except.error e, s1)
  | (Except.ok r, s1) =>
      (Except.ok r,
        { mem := copyNonoverlapping ptr_and_meta.ptr r.ptr old_layout.size s1.mem,
          inner := A.co_deallocate ptr_and_meta old_layout s1.inner,
          deallocs := s1.deallocs ++ [(ptr_and_meta, old_layout)] })

/-- Default body of `CoAllocator::shrink` (src/alloc.rs lines 104 to
132): allocate `new_layout`, propagate failure, otherwise copy
`new_layout.size()` bytes from the old pointer to the start of the new
slice, deallocate the old pair with `old_layout`, and return the new
pair. -/
def shrink {M σ : Type} (A : CoAllocator M σ) (ptr_and_meta : PtrAndMeta M)
    (old_layout new_layout : Layout) (s : AState M σ) :
    SliceAndMetaResult M × AState M σ :=
  match A.co_allocate new_layout s.inner with
  | (Except.error e, σ1) => (Except.error e, { s with inner := σ1 })
  | (Except.ok r, σ1) =>
      (Except.ok r,
        { mem := copyNonoverlapping ptr_and_meta.ptr r.ptr new_layout.size s.mem,
          inner := A.co_deallocate ptr_and_meta old_layout σ1,
          deallocs := s.deallocs ++ [(ptr_and_meta, old_layout)] })

/-- Default body of `CoAllocator::by_ref` (src/alloc.rs lines 134 to
139): return the allocator itself. -/
def by_ref {M σ : Type} (A : CoAllocator M σ) : CoAllocator M σ := A

namespace Global

/-- Parameter and result pair of `GlobalCoAlloc` (src/global.rs): a raw
address (`0` is the null sentinel) and its metadata. -/
structure PtrAndMeta (M : Type) where
  ptr : Nat
  meta : M

end Global

/-- The required primitives of the `GlobalCoAlloc<M>` trait, acting on
a private allocator state `σ`.  A returned address of `0` signals
failure. -/
structure GlobalCoAlloc (M σ : Type) where
  co_alloc : Layout → σ → Global.PtrAndMeta M × σ
  co_dealloc : Global.PtrAndMeta M → Layout → σ → σ

/-- Full state threaded through the raw-address derived operations. -/
structure GState (M σ : Type) where
  mem : Mem
  inner : σ
  deallocs : List (Global.PtrAndMeta M × Layout)

namespace Global

/-- Default body of `GlobalCoAlloc::co_alloc_zeroed` (src/global.rs
lines 54 to 64): call `co_alloc`; if the returned address is non-null,
zero-fill `layout.size()` bytes starting at it; return the pair. -/
def co_alloc_zeroed {M σ : Type} (A : GlobalCoAlloc M σ) (layout : Layout)
    (s : GState M σ) : PtrAndMeta M × GState M σ :=
  match A.co_alloc layout s.inner with
  | (pm, σ1) =>
      if pm.ptr ≠ 0 then
        (pm, { s with inner := σ1, mem := writeBytes pm.ptr 0 layout.size s.mem })
      else
        (pm, { s with inner := σ1 })

/-- Default body of `GlobalCoAlloc::co_realloc` (src/global.rs lines
120 to 144): build the new layout from `new_size` and the old
alignment, call `co_alloc` with it; if the returned address is
non-null, copy `min(layout.size(), new_size)` bytes from the old
address, deallocate the old pair with the old layout, and return the
new pair; otherwise return the new (null) pair with nothing else
done. -/
def co_realloc {M σ : Type} (A : GlobalCoAlloc M σ) (ptr_and_meta : PtrAndMeta M)
    (layout : Layout) (new_size : Nat) (s : GState M σ) :
    PtrAndMeta M × GState M σ :=
  match A.co_alloc ⟨new_size, layout.align⟩ s.inner with
  | (npm, σ1) =>
      if npm.ptr ≠ 0 then
        (npm,
          { mem := copyNonoverlapping ptr_and_meta.ptr npm.ptr
              (min layout.size new_size) s.mem,
            inner := A.co_dealloc ptr_and_meta layout σ1,
            deallocs := s.deallocs ++ [(ptr_and_meta, layout)] })
      else
        (npm, { s with inner := σ1 })

end Global

/-! Helper lemmas about the raw memory operations. -/

lemma writeBytes_inside (p v n : Nat) (m : Mem) (i : Nat) (h : i < n) :
    writeBytes p v n m (p + i) = v := by
  unfold writeBytes
  rw [if_pos]
  exact ⟨Nat.le_add_right _ _, by omega⟩

lemma writeBytes_outside (p v n : Nat) (m : Mem) (a : Nat)
    (h : a < p ∨ p + n ≤ a) : writeBytes p v n m a = m a := by
  unfold writeBytes
  rw [if_neg]
  omega

lemma copyNonoverlapping_inside (src dst n : Nat) (m : Mem) (i : Nat)
    (h : i < n) : copyNonoverlapping src dst n m (dst + i) = m (src + i) := by
  unfold copyNonoverlapping
  rw [if_pos ⟨Nat.le_add_right _ _, by omega⟩]
  congr 1
  omega

lemma copyNonoverlapping_outside (src dst n : Nat) (m : Mem) (a : Nat)
    (h : a < dst ∨ dst + n ≤ a) : copyNonoverlapping src dst n m a = m a := by
  unfold copyNonoverlapping
  rw [if_neg]
  omega

/-! Concrete allocators and states used to instantiate the theorems on
closed inputs. -/

/-- Deterministic fallible allocator: the n-th allocation succeeds at
address `100 * (n + 1)` with a slice of exactly the requested size and
metadata `true`; deallocation bumps the state by 10. -/
def okAlloc : CoAllocator Bool Nat where
  co_allocate := fun l st => (Except.ok ⟨100 * (st + 1), l.size, true⟩, st + 1)
  co_deallocate := fun _ _ st => st + 10

/-- Fallible allocator that always fails. -/
def failAlloc : CoAllocator Bool Nat where
  co_allocate := fun _ st => (Except.error ⟨⟩, st + 1)
  co_deallocate := fun _ _ st => st + 10

/-- Deterministic raw-address allocator: the n-th allocation returns
address `100 * (n + 1)` with metadata `true`. -/
def gOkAlloc : GlobalCoAlloc Bool Nat where
  co_alloc := fun _ st => (⟨100 * (st + 1), true⟩, st + 1)
  co_dealloc := fun _ _ st => st + 10

/-- Raw-address allocator that always fails: it returns the null
address `0` with metadata `false`. -/
def gNullAlloc : GlobalCoAlloc Bool Nat where
  co_alloc := fun _ st => (⟨0, false⟩, st + 1)
  co_dealloc := fun _ _ st => st + 10

/-- Initial fallible-variant state: memory holds byte `a % 251` at
address `a`, allocator state `0`, empty deallocation log. -/
def s0 : AState Bool Nat := ⟨fun a => a % 251, 0, []⟩

/-- Initial raw-address-variant state. -/
def g0 : GState Bool Nat := ⟨fun a => a % 251, 0, []⟩

/-! Claim theorems. -/

/-- C1: for every old region, old_layout and new_layout with
`new_layout.size() >= old_layout.size()`, when the internal
`co_allocate(new_layout)` succeeds, `co_grow` copies exactly
`old_layout.size()` bytes from the old region to the start of the new
region (reading bytes `0..old_layout.size()` of the result reproduces
the old contents), passes the old pointer-and-metadata pair with
`old_layout` to `co_deallocate`, and returns the new pair produced by
`co_allocate`. -/
theorem co_grow_ok_spec {M σ : Type} (A : CoAllocator M σ) (pm : PtrAndMeta M)
    (old_layout new_layout : Layout) (s : AState M σ) (r : SliceAndMeta M) (σ1 : σ)
    (hsz : old_layout.size ≤ new_layout.size)
    (halloc : A.co_allocate new_layout s.inner = (Except.ok r, σ1)) :
    (co_grow A pm old_layout new_layout s).1 = Except.ok r ∧
    (co_grow A pm old_layout new_layout s).2.mem =
      copyNonoverlapping pm.ptr r.ptr old_layout.size s.mem ∧
    (∀ i, i < old_layout.size →
      (co_grow A pm old_layout new_layout s).2.mem (r.ptr + i) = s.mem (pm.ptr + i)) ∧
    (co_grow A pm old_layout new_layout s).2.inner = A.co_deallocate pm old_layout σ1 ∧
    (co_grow A pm old_layout new_layout s).2.deallocs =
      s.deallocs ++ [(pm, old_layout)] := by
  unfold co_grow
  rw [halloc]
  exact ⟨rfl, rfl, fun i hi => copyNonoverlapping_inside _ _ _ _ _ hi, rfl, rfl⟩

/-- Witness for C1 at a concrete allocator, state and layouts. -/
theorem co_grow_ok_spec_witness :
    (1 ≤ 2 ∧ okAlloc.co_allocate ⟨2, 8⟩ s0.inner = (Except.ok ⟨100, 2, true⟩, 1)) ∧
    ((co_grow okAlloc ⟨5, true⟩ ⟨1, 4⟩ ⟨2, 4⟩ s0).1 = Except.ok ⟨100, 2, true⟩ ∧
      (co_grow okAlloc ⟨5, true⟩ ⟨1, 4⟩ ⟨2, 4⟩ s0).2.mem =
        copyNonoverlapping 5 100 1 s0.mem ∧
      (∀ i, i < 1 →
        (co_grow okAlloc ⟨5, true⟩ ⟨1, 4⟩ ⟨2, 4⟩ s0).2.mem (100 + i) = s0.mem (5 + i)) ∧
      (co_grow okAlloc ⟨5, true⟩ ⟨1, 4⟩ ⟨2, 4⟩ s0).2.inner =
        okAlloc.co_deallocate ⟨5, true⟩ ⟨1, 4⟩ 1 ∧
      (co_grow okAlloc ⟨5, true⟩ ⟨1, 4⟩ ⟨2, 4⟩ s0).2.deallocs =
        s0.deallocs ++ [(⟨5, true⟩, ⟨1, 4⟩)]) :=
  ⟨⟨by decide, rfl⟩,
    co_grow_ok_spec okAlloc ⟨5, true⟩ ⟨1, 4⟩ ⟨2, 4⟩ s0 ⟨100, 2, true⟩ 1 (by decide) rfl⟩

/-- C5: for every old region, old_layout and new_layout with
`new_layout.size() <= old_layout.size()`, on success `shrink` copies
exactly the first `new_layout.size()` bytes from the old region (the
result read over `0..new_layout.size()` equals the corresponding prefix
of the original region), deallocates the old pair via `co_deallocate`
with `old_layout`, and returns the new pair. -/
theorem shrink_ok_spec {M σ : Type} (A : CoAllocator M σ) (pm : PtrAndMeta M)
    (old_layout new_layout : Layout) (s : AState M σ) (r : SliceAndMeta M) (σ1 : σ)
    (hsz : new_layout.size ≤ old_layout.size)
    (halloc : A.co_allocate new_layout s.inner = (Except.ok r, σ1)) :
    (shrink A pm old_layout new_layout s).1 = Except.ok r ∧
    (shrink A pm old_layout new_layout s).2.mem =
      copyNonoverlapping pm.ptr r.ptr new_layout.size s.mem ∧
    (∀ i, i < new_layout.size →
      (shrink A pm old_layout new_layout s).2.mem (r.ptr + i) = s.mem (pm.ptr + i)) ∧
    (shrink A pm old_layout new_layout s).2.inner = A.co_deallocate pm old_layout σ1 ∧
    (shrink A pm old_layout new_layout s).2.deallocs =
      s.deallocs ++ [(pm, old_layout)] := by
  unfold shrink
  rw [halloc]
  exact ⟨rfl, rfl, fun i hi => copyNonoverlapping_inside _ _ _ _ _ hi, rfl, rfl⟩

/-- Witness for C5 at a concrete allocator, state and layouts. -/
theorem shrink_ok_spec_witness :
    (1 ≤ 3 ∧ okAlloc.co_allocate ⟨1, 4⟩ s0.inner = (Except.ok ⟨100, 1, true⟩, 1)) ∧
    ((shrink okAlloc ⟨5, true⟩ ⟨3, 4⟩ ⟨1, 4⟩ s0).1 = Except.ok ⟨100, 1, true⟩ ∧
      (shrink okAlloc ⟨5, true⟩ ⟨3, 4⟩ ⟨1, 4⟩ s0).2.mem =
        copyNonoverlapping 5 100 1 s0.mem ∧
      (∀ i, i < 1 →
        (shrink okAlloc ⟨5, true⟩ ⟨3, 4⟩ ⟨1, 4⟩ s0).2.mem (100 + i) = s0.mem (5 + i)) ∧
      (shrink okAlloc ⟨5, true⟩ ⟨3, 4⟩ ⟨1, 4⟩ s0).2.inner =
        okAlloc.co_deallocate ⟨5, true⟩ ⟨3, 4⟩ 1 ∧
      (shrink okAlloc ⟨5, true⟩ ⟨3, 4⟩ ⟨1, 4⟩ s0).2.deallocs =
        s0.deallocs ++ [(⟨5, true⟩, ⟨3, 4⟩)]) :=
  ⟨⟨by decide, rfl⟩,
    shrink_ok_spec okAlloc ⟨5, true⟩ ⟨3, 4⟩ ⟨1, 4⟩ s0 ⟨100, 1, true⟩ 1 (by decide) rfl⟩

/-- C4: for every old pair, old_layout and new_layout, if the internal
`co_allocate(new_layout)` inside `co_grow` (or `co_grow_zeroed` or
`shrink`) fails, the operation returns that error, `co_deallocate` is
never called, and the old region (indeed all of memory) is left
untouched: the result state differs from the input state only in the
private allocator state updated by the failing allocate call. -/
theorem grow_shrink_alloc_fail_spec {M σ : Type} (A : CoAllocator M σ)
    (pm : PtrAndMeta M) (old_layout new_layout : Layout) (s : AState M σ)
    (e : AllocError) (σ1 : σ)
    (halloc : A.co_allocate new_layout s.inner = (Except.error e, σ1)) :
    co_grow A pm old_layout new_layout s = (Except.error e, { s with inner := σ1 }) ∧
    co_grow_zeroed A pm old_layout new_layout s =
      (Except.error e, { s with inner := σ1 }) ∧
    shrink A pm old_layout new_layout s = (Except.error e, { s with inner := σ1 }) ∧
    (co_grow A pm old_layout new_layout s).2.mem = s.mem ∧
    (co_grow_zeroed A pm old_layout new_layout s).2.mem = s.mem ∧
    (shrink A pm old_layout new_layout s).2.mem = s.mem ∧
    (co_grow A pm old_layout new_layout s).2.deallocs = s.deallocs ∧
    (co_grow_zeroed A pm old_layout new_layout s).2.deallocs = s.deallocs ∧
    (shrink A pm old_layout new_layout s).2.deallocs = s.deallocs := by
  unfold co_grow co_grow_zeroed shrink co_allocate_zeroed
  rw [halloc]
  exact ⟨rfl, rfl, rfl, rfl, rfl, rfl, rfl, rfl, rfl⟩

/-- Witness for C4 at a concrete failing allocator. -/
theorem grow_shrink_alloc_fail_spec_witness :
    failAlloc.co_allocate ⟨2, 4⟩ s0.inner = (Except.error ⟨⟩, 1) ∧
    (co_grow failAlloc ⟨5, true⟩ ⟨1, 4⟩ ⟨2, 4⟩ s0 =
        (Except.error ⟨⟩, { s0 with inner := 1 }) ∧
      co_grow_zeroed failAlloc ⟨5, true⟩ ⟨1, 4⟩ ⟨2, 4⟩ s0 =
        (Except.error ⟨⟩, { s0 with inner := 1 }) ∧
      shrink failAlloc ⟨5, true⟩ ⟨1, 4⟩ ⟨2, 4⟩ s0 =
        (Except.error ⟨⟩, { s0 with inner := 1 }) ∧
      (co_grow failAlloc ⟨5, true⟩ ⟨1, 4⟩ ⟨2, 4⟩ s0).2.mem = s0.mem ∧
      (co_grow_zeroed failAlloc ⟨5, true⟩ ⟨1, 4⟩ ⟨2, 4⟩ s0).2.mem = s0.mem ∧
      (shrink failAlloc ⟨5, true⟩ ⟨1, 4⟩ ⟨2, 4⟩ s0).2.mem = s0.mem ∧
      (co_grow failAlloc ⟨5, true⟩ ⟨1, 4⟩ ⟨2, 4⟩ s0).2.deallocs = s0.deallocs ∧
      (co_grow_zeroed failAlloc ⟨5, true⟩ ⟨1, 4⟩ ⟨2, 4⟩ s0).2.deallocs = s0.deallocs ∧
      (shrink failAlloc ⟨5, true⟩ ⟨1, 4⟩ ⟨2, 4⟩ s0).2.deallocs = s0.deallocs) :=
  ⟨rfl, grow_shrink_alloc_fail_spec failAlloc ⟨5, true⟩ ⟨1, 4⟩ ⟨2, 4⟩ s0 ⟨⟩ 1 rfl⟩

/-- C6: for every layout, `co_allocate_zeroed` calls `co_allocate` and,
on success, overwrites the entire returned region (all `slice.len()`
bytes of the actual returned slice) with zero bytes before returning
the pair unchanged otherwise; it fails exactly when `co_allocate`
fails, with the same error. -/
theorem co_allocate_zeroed_spec {M σ : Type} (A : CoAllocator M σ) (layout : Layout)
    (s : AState M σ) :
    (∀ e σ1, A.co_allocate layout s.inner = (Except.error e, σ1) →
      co_allocate_zeroed A layout s = (Except.error e, { s with inner := σ1 })) ∧
    (∀ r σ1, A.co_allocate layout s.inner = (Except.ok r, σ1) →
      (co_allocate_zeroed A layout s).1 = Except.ok r ∧
      (co_allocate_zeroed A layout s).2.mem = writeBytes r.ptr 0 r.len s.mem ∧
      (∀ i, i < r.len → (co_allocate_zeroed A layout s).2.mem (r.ptr + i) = 0) ∧
      (co_allocate_zeroed A layout s).2.inner = σ1 ∧
      (co_allocate_zeroed A layout s).2.deallocs = s.deallocs) := by
  constructor
  · intro e σ1 h
    unfold co_allocate_zeroed
    rw [h]
  · intro r σ1 h
    unfold co_allocate_zeroed
    rw [h]
    exact ⟨rfl, rfl, fun i hi => writeBytes_inside _ _ _ _ _ hi, rfl, rfl⟩

/-- Witness for C6: the failing branch at `failAlloc` and the
successful branch at `okAlloc`, on a slice of length 2. -/
theorem co_allocate_zeroed_spec_witness :
    (failAlloc.co_allocate ⟨2, 4⟩ s0.inner = (Except.error ⟨⟩, 1) ∧
      co_allocate_zeroed failAlloc ⟨2, 4⟩ s0 =
        (Except.error ⟨⟩, { s0 with inner := 1 })) ∧
    (okAlloc.co_allocate ⟨2, 4⟩ s0.inner = (Except.ok ⟨100, 2, true⟩, 1) ∧
      (co_allocate_zeroed okAlloc ⟨2, 4⟩ s0).1 = Except.ok ⟨100, 2, true⟩ ∧
      (∀ i, i < 2 → (co_allocate_zeroed okAlloc ⟨2, 4⟩ s0).2.mem (100 + i) = 0)) :=
  ⟨⟨rfl, (co_allocate_zeroed_spec failAlloc ⟨2, 4⟩ s0).1 ⟨⟩ 1 rfl⟩,
    ⟨rfl, ((co_allocate_zeroed_spec okAlloc ⟨2, 4⟩ s0).2 ⟨100, 2, true⟩ 1 rfl).1,
      ((co_allocate_zeroed_spec okAlloc ⟨2, 4⟩ s0).2 ⟨100, 2, true⟩ 1 rfl).2.2.1⟩⟩

/-- C3: for every old region, old_layout and new_layout with
`new_layout.size() >= old_layout.size()`, on success `co_grow_zeroed`
obtains the new region via `co_allocate_zeroed` (the whole new slice is
zero-filled first, then the first `old_layout.size()` bytes are copied
from the old region); provided the returned slice covers
`new_layout.size()` bytes and is disjoint from the old region (the base
allocator contract), the result over
`old_layout.size()..new_layout.size()` is all zero and the result over
`0..old_layout.size()` equals the old contents. -/
theorem co_grow_zeroed_ok_spec {M σ : Type} (A : CoAllocator M σ) (pm : PtrAndMeta M)
    (old_layout new_layout : Layout) (s : AState M σ) (r : SliceAndMeta M) (σ1 : σ)
    (hsz : old_layout.size ≤ new_layout.size)
    (halloc : A.co_allocate new_layout s.inner = (Except.ok r, σ1))
    (hfit : new_layout.size ≤ r.len)
    (hdisj : pm.ptr + old_layout.size ≤ r.ptr ∨ r.ptr + r.len ≤ pm.ptr) :
    (co_grow_zeroed A pm old_layout new_layout s).1 = Except.ok r ∧
    (co_allocate_zeroed A new_layout s).1 = Except.ok r ∧
    (co_grow_zeroed A pm old_layout new_layout s).2.mem =
      copyNonoverlapping pm.ptr r.ptr old_layout.size
        ((co_allocate_zeroed A new_layout s).2.mem) ∧
    (∀ i, old_layout.size ≤ i → i < new_layout.size →
      (co_grow_zeroed A pm old_layout new_layout s).2.mem (r.ptr + i) = 0) ∧
    (∀ i, i < old_layout.size →
      (co_grow_zeroed A pm old_layout new_layout s).2.mem (r.ptr + i) =
        s.mem (pm.ptr + i)) := by
  have hz : co_allocate_zeroed A new_layout s =
      (Except.ok r, { s with inner := σ1, mem := writeBytes r.ptr 0 r.len s.mem }) := by
    unfold co_allocate_zeroed
    rw [halloc]
  unfold co_grow_zeroed
  rw [hz]
  refine ⟨rfl, rfl, rfl, ?_, ?_⟩
  · intro i hlo hhi
    show copyNonoverlapping pm.ptr r.ptr old_layout.size
      (writeBytes r.ptr 0 r.len s.mem) (r.ptr + i) = 0
    rw [copyNonoverlapping_outside _ _ _ _ _ (Or.inr (by omega))]
    exact writeBytes_inside _ _ _ _ _ (by omega)
  · intro i hi
    show copyNonoverlapping pm.ptr r.ptr old_layout.size
      (writeBytes r.ptr 0 r.len s.mem) (r.ptr + i) = s.mem (pm.ptr + i)
    rw [copyNonoverlapping_inside _ _ _ _ _ hi]
    rcases hdisj with hd | hd
    · exact writeBytes_outside _ _ _ _ _ (Or.inl (by omega))
    · exact writeBytes_outside _ _ _ _ _ (Or.inr (by omega))

/-- Witness for C3 at a concrete allocator, with old size 1 and new
size 2: byte `old_layout.size()` of the result is zero and byte 0
carries the old content. -/
theorem co_grow_zeroed_ok_spec_witness :
    (1 ≤ 2 ∧ okAlloc.co_allocate ⟨2, 4⟩ s0.inner = (Except.ok ⟨100, 2, true⟩, 1) ∧
      2 ≤ 2 ∧ (5 + 1 ≤ 100 ∨ 100 + 2 ≤ 5)) ∧
    ((co_grow_zeroed okAlloc ⟨5, true⟩ ⟨1, 4⟩ ⟨2, 4⟩ s0).1 = Except.ok ⟨100, 2, true⟩ ∧
      (co_allocate_zeroed okAlloc ⟨2, 4⟩ s0).1 = Except.ok ⟨100, 2, true⟩ ∧
      (co_grow_zeroed okAlloc ⟨5, true⟩ ⟨1, 4⟩ ⟨2, 4⟩ s0).2.mem =
        copyNonoverlapping 5 100 1 ((co_allocate_zeroed okAlloc ⟨2, 4⟩ s0).2.mem) ∧
      (∀ i, 1 ≤ i → i < 2 →
        (co_grow_zeroed okAlloc ⟨5, true⟩ ⟨1, 4⟩ ⟨2, 4⟩ s0).2.mem (100 + i) = 0) ∧
      (∀ i, i < 1 →
        (co_grow_zeroed okAlloc ⟨5, true⟩ ⟨1, 4⟩ ⟨2, 4⟩ s0).2.mem (100 + i) =
          s0.mem (5 + i))) :=
  ⟨⟨by decide, rfl, by decide, by decide⟩,
    co_grow_zeroed_ok_spec okAlloc ⟨5, true⟩ ⟨1, 4⟩ ⟨2, 4⟩ s0 ⟨100, 2, true⟩ 1
      (by decide) rfl (by decide) (by decide)⟩

/-- C9: starting from an allocated region (address `pm.ptr`, contents
given by `s.mem`) with layout `orig_layout`, growing it with `co_grow`
to a larger `big_layout` and then shrinking the result back to
`orig_layout` with `shrink` succeeds (given both internal allocations
succeed) and yields a region whose full contents, read over
`0..orig_layout.size()`, equal the original region's full contents. -/
theorem grow_shrink_roundtrip_spec {M σ : Type} (A : CoAllocator M σ)
    (pm : PtrAndMeta M) (orig_layout big_layout : Layout) (s : AState M σ)
    (r1 r2 : SliceAndMeta M) (σ1 σ2 : σ)
    (hsz : orig_layout.size ≤ big_layout.size)
    (h1 : A.co_allocate big_layout s.inner = (Except.ok r1, σ1))
    (h2 : A.co_allocate orig_layout
        (co_grow A pm orig_layout big_layout s).2.inner = (Except.ok r2, σ2)) :
    (shrink A ⟨r1.ptr, r1.meta⟩ big_layout orig_layout
        (co_grow A pm orig_layout big_layout s).2).1 = Except.ok r2 ∧
    ∀ i, i < orig_layout.size →
      (shrink A ⟨r1.ptr, r1.meta⟩ big_layout orig_layout
          (co_grow A pm orig_layout big_layout s).2).2.mem (r2.ptr + i) =
        s.mem (pm.ptr + i) := by
  have hg : (co_grow A pm orig_layout big_layout s).2.mem =
      copyNonoverlapping pm.ptr r1.ptr orig_layout.size s.mem := by
    unfold co_grow
    rw [h1]
  unfold shrink
  rw [h2]
  refine ⟨rfl, ?_⟩
  intro i hi
  show copyNonoverlapping r1.ptr r2.ptr orig_layout.size
      ((co_grow A pm orig_layout big_layout s).2.mem) (r2.ptr + i) =
    s.mem (pm.ptr + i)
  rw [copyNonoverlapping_inside _ _ _ _ _ hi, hg,
    copyNonoverlapping_inside _ _ _ _ _ hi]

/-- Witness for C9: grow a 2-byte region at address 5 to 4 bytes, then
shrink back to 2 bytes; both bytes of the final region carry the
original contents. -/
theorem grow_shrink_roundtrip_spec_witness :
    (2 ≤ 4 ∧ okAlloc.co_allocate ⟨4, 8⟩ s0.inner = (Except.ok ⟨100, 4, true⟩, 1) ∧
      okAlloc.co_allocate ⟨2, 8⟩
        (co_grow okAlloc ⟨5, true⟩ ⟨2, 8⟩ ⟨4, 8⟩ s0).2.inner =
        (Except.ok ⟨1200, 2, true⟩, 12)) ∧
    ((shrink okAlloc ⟨100, true⟩ ⟨4, 8⟩ ⟨2, 8⟩
        (co_grow okAlloc ⟨5, true⟩ ⟨2, 8⟩ ⟨4, 8⟩ s0).2).1 = Except.ok ⟨1200, 2, true⟩ ∧
      ∀ i, i < 2 →
        (shrink okAlloc ⟨100, true⟩ ⟨4, 8⟩ ⟨2, 8⟩
            (co_grow okAlloc ⟨5, true⟩ ⟨2, 8⟩ ⟨4, 8⟩ s0).2).2.mem (1200 + i) =
          s0.mem (5 + i)) :=
  ⟨⟨by decide, rfl, rfl⟩,
    grow_shrink_roundtrip_spec okAlloc ⟨5, true⟩ ⟨2, 8⟩ ⟨4, 8⟩ s0
      ⟨100, 4, true⟩ ⟨1200, 2, true⟩ 1 12 (by decide) rfl rfl⟩

/-- C2: when the internal `co_alloc` inside `co_realloc` returns a null
address, `co_realloc` returns a null address, does not call `co_dealloc`
on the old pair, and performs no memory write: the memory is unchanged
byte for byte (in particular the old region's contents). -/
theorem co_realloc_null_spec {M σ : Type} (A : GlobalCoAlloc M σ)
    (pm : Global.PtrAndMeta M) (layout : Layout) (new_size : Nat)
    (s : GState M σ) (npm : Global.PtrAndMeta M) (σ1 : σ)
    (halloc : A.co_alloc ⟨new_size, layout.align⟩ s.inner = (npm, σ1))
    (hnull : npm.ptr = 0) :
    (Global.co_realloc A pm layout new_size s).1.ptr = 0 ∧
    (Global.co_realloc A pm layout new_size s).2.mem = s.mem ∧
    (Global.co_realloc A pm layout new_size s).2.deallocs = s.deallocs := by
  have h : Global.co_realloc A pm layout new_size s = (npm, { s with inner := σ1 }) := by
    unfold Global.co_realloc
    rw [halloc]
    simp [hnull]
  refine ⟨?_, ?_, ?_⟩
  · rw [h]
    exact hnull
  · rw [h]
  · rw [h]

/-- Witness for C2 at the always-null allocator: memory at the old
region (address 5, two bytes) is untouched. -/
theorem co_realloc_null_spec_witness :
    (gNullAlloc.co_alloc ⟨4, 4⟩ g0.inner = (⟨0, false⟩, 1) ∧
      (0 : Nat) = 0) ∧
    ((Global.co_realloc gNullAlloc ⟨5, true⟩ ⟨2, 4⟩ 4 g0).1.ptr = 0 ∧
      (Global.co_realloc gNullAlloc ⟨5, true⟩ ⟨2, 4⟩ 4 g0).2.mem = g0.mem ∧
      (Global.co_realloc gNullAlloc ⟨5, true⟩ ⟨2, 4⟩ 4 g0).2.deallocs = g0.deallocs) :=
  ⟨⟨rfl, rfl⟩,
    co_realloc_null_spec gNullAlloc ⟨5, true⟩ ⟨2, 4⟩ 4 g0 ⟨0, false⟩ 1 rfl rfl⟩

/-- C10: when the internal `co_alloc` inside `co_realloc` returns a
null address, `co_realloc` returns the exact pair produced by that
failing `co_alloc` call — the null address together with that call's
metadata value, not the caller's old metadata. -/
theorem co_realloc_null_pair_spec {M σ : Type} (A : GlobalCoAlloc M σ)
    (pm : Global.PtrAndMeta M) (layout : Layout) (new_size : Nat)
    (s : GState M σ) (npm : Global.PtrAndMeta M) (σ1 : σ)
    (halloc : A.co_alloc ⟨new_size, layout.align⟩ s.inner = (npm, σ1))
    (hnull : npm.ptr = 0) :
    (Global.co_realloc A pm layout new_size s).1 = npm := by
  unfold Global.co_realloc
  rw [halloc]
  simp [hnull]

/-- Witness for C10: the old pair carries metadata `true`, the failing
allocation carries metadata `false`, and the returned pair is the
latter (so the old metadata is not handed back). -/
theorem co_realloc_null_pair_spec_witness :
    (gNullAlloc.co_alloc ⟨4, 4⟩ g0.inner = (⟨0, false⟩, 1) ∧
      (Global.co_realloc gNullAlloc ⟨7, true⟩ ⟨2, 4⟩ 4 g0).1 = ⟨0, false⟩) ∧
    (Global.co_realloc gNullAlloc ⟨7, true⟩ ⟨2, 4⟩ 4 g0).1.meta = false :=
  ⟨⟨rfl, co_realloc_null_pair_spec gNullAlloc ⟨7, true⟩ ⟨2, 4⟩ 4 g0 ⟨0, false⟩ 1 rfl rfl⟩,
    congrArg Global.PtrAndMeta.meta
      (co_realloc_null_pair_spec gNullAlloc ⟨7, true⟩ ⟨2, 4⟩ 4 g0 ⟨0, false⟩ 1 rfl rfl)⟩

/-- C7: for every old pair, old layout and `new_size`, `co_realloc`
calls `co_alloc` with the layout built from `new_size` and the old
alignment; when the returned address is non-null it copies exactly
`min(layout.size(), new_size)` bytes from the old region into the new
one, deallocates the old pair via `co_dealloc` with the old layout, and
returns the new address-and-metadata pair. -/
theorem co_realloc_ok_spec {M σ : Type} (A : GlobalCoAlloc M σ)
    (pm : Global.PtrAndMeta M) (layout : Layout) (new_size : Nat)
    (s : GState M σ) (npm : Global.PtrAndMeta M) (σ1 : σ)
    (halloc : A.co_alloc ⟨new_size, layout.align⟩ s.inner = (npm, σ1))
    (hnn : npm.ptr ≠ 0) :
    (Global.co_realloc A pm layout new_size s).1 = npm ∧
    (Global.co_realloc A pm layout new_size s).2.mem =
      copyNonoverlapping pm.ptr npm.ptr (min layout.size new_size) s.mem ∧
    (∀ i, i < min layout.size new_size →
      (Global.co_realloc A pm layout new_size s).2.mem (npm.ptr + i) =
        s.mem (pm.ptr + i)) ∧
    (Global.co_realloc A pm layout new_size s).2.inner = A.co_dealloc pm layout σ1 ∧
    (Global.co_realloc A pm layout new_size s).2.deallocs =
      s.deallocs ++ [(pm, layout)] := by
  have h : Global.co_realloc A pm layout new_size s =
      (npm,
        { mem := copyNonoverlapping pm.ptr npm.ptr (min layout.size new_size) s.mem,
          inner := A.co_dealloc pm layout σ1,
          deallocs := s.deallocs ++ [(pm, layout)] }) := by
    unfold Global.co_realloc
    rw [halloc]
    simp [hnn]
  refine ⟨by rw [h], by rw [h], ?_, by rw [h], by rw [h]⟩
  intro i hi
  rw [h]
  exact copyNonoverlapping_inside _ _ _ _ _ hi

/-- Witness for C7: reallocating a 3-byte region at address 5 to 2
bytes through `gOkAlloc`; the 2 copied bytes land at address 100. -/
theorem co_realloc_ok_spec_witness :
    (gOkAlloc.co_alloc ⟨2, 4⟩ g0.inner = (⟨100, true⟩, 1) ∧ (100 : Nat) ≠ 0) ∧
    ((Global.co_realloc gOkAlloc ⟨5, true⟩ ⟨3, 4⟩ 2 g0).1 = ⟨100, true⟩ ∧
      (Global.co_realloc gOkAlloc ⟨5, true⟩ ⟨3, 4⟩ 2 g0).2.mem =
        copyNonoverlapping 5 100 (min 3 2) g0.mem ∧
      (∀ i, i < min 3 2 →
        (Global.co_realloc gOkAlloc ⟨5, true⟩ ⟨3, 4⟩ 2 g0).2.mem (100 + i) =
          g0.mem (5 + i)) ∧
      (Global.co_realloc gOkAlloc ⟨5, true⟩ ⟨3, 4⟩ 2 g0).2.inner =
        gOkAlloc.co_dealloc ⟨5, true⟩ ⟨3, 4⟩ 1 ∧
      (Global.co_realloc gOkAlloc ⟨5, true⟩ ⟨3, 4⟩ 2 g0).2.deallocs =
        g0.deallocs ++ [(⟨5, true⟩, ⟨3, 4⟩)]) :=
  ⟨⟨rfl, by decide⟩,
    co_realloc_ok_spec gOkAlloc ⟨5, true⟩ ⟨3, 4⟩ 2 g0 ⟨100, true⟩ 1 rfl (by decide)⟩

/-- C8: for every layout, `co_alloc_zeroed` calls `co_alloc`; exactly
when the returned address is non-null it zero-fills `layout.size()`
bytes starting at that address before returning the pair; when the
address is null, no memory write occurs and the pair from `co_alloc` is
returned as-is. -/
theorem co_alloc_zeroed_spec {M σ : Type} (A : GlobalCoAlloc M σ) (layout : Layout)
    (s : GState M σ) (npm : Global.PtrAndMeta M) (σ1 : σ)
    (halloc : A.co_alloc layout s.inner = (npm, σ1)) :
    (npm.ptr ≠ 0 →
      Global.co_alloc_zeroed A layout s =
        (npm, { s with
                inner := σ1
                mem := writeBytes npm.ptr 0 layout.size s.mem }) ∧
      ∀ i, i < layout.size →
        (Global.co_alloc_zeroed A layout s).2.mem (npm.ptr + i) = 0) ∧
    (npm.ptr = 0 →
      Global.co_alloc_zeroed A layout s = (npm, { s with inner := σ1 })) := by
  constructor
  · intro hnn
    have h : Global.co_alloc_zeroed A layout s =
        (npm, { s with
                inner := σ1
                mem := writeBytes npm.ptr 0 layout.size s.mem }) := by
      unfold Global.co_alloc_zeroed
      rw [halloc]
      simp [hnn]
    refine ⟨h, ?_⟩
    intro i hi
    rw [h]
    exact writeBytes_inside _ _ _ _ _ hi
  · intro hnull
    unfold Global.co_alloc_zeroed
    rw [halloc]
    simp [hnull]

/-- Witness for C8: the non-null branch at `gOkAlloc` (both bytes of
the returned 2-byte region are zero) and the null branch at
`gNullAlloc` (state unchanged but for the inner allocator state). -/
theorem co_alloc_zeroed_spec_witness :
    (gOkAlloc.co_alloc ⟨2, 4⟩ g0.inner = (⟨100, true⟩, 1) ∧
      Global.co_alloc_zeroed gOkAlloc ⟨2, 4⟩ g0 =
        (⟨100, true⟩, { g0 with
                        inner := 1
                        mem := writeBytes 100 0 2 g0.mem }) ∧
      ∀ i, i < 2 →
        (Global.co_alloc_zeroed gOkAlloc ⟨2, 4⟩ g0).2.mem (100 + i) = 0) ∧
    (gNullAlloc.co_alloc ⟨2, 4⟩ g0.inner = (⟨0, false⟩, 1) ∧
      Global.co_alloc_zeroed gNullAlloc ⟨2, 4⟩ g0 = (⟨0, false⟩, { g0 with inner := 1 })) :=
  ⟨⟨rfl, ((co_alloc_zeroed_spec gOkAlloc ⟨2, 4⟩ g0 ⟨100, true⟩ 1 rfl).1 (by decide)).1,
      ((co_alloc_zeroed_spec gOkAlloc ⟨2, 4⟩ g0 ⟨100, true⟩ 1 rfl).1 (by decide)).2⟩,
    ⟨rfl, (co_alloc_zeroed_spec gNullAlloc ⟨2, 4⟩ g0 ⟨0, false⟩ 1 rfl).2 rfl⟩⟩
